import Mathlib

/-!
Shallow embedding of the change-triggered photo sampler in
`src/src/pages/Index.tsx` (component `Index`): the frame-difference metric
`calculateImageDifference`, the tick procedure `capturePhoto`, the persistence
request `savePhoto`, and the session toggle `toggleCapture`.

Modelling conventions:
* `ImageData` is the browser pixel buffer: a flat list of RGBA bytes
  (`data`), plus the `width`/`height` the buffer was read at.
* JavaScript number semantics are embedded over `ℚ`.  The single place the
  source can produce `NaN` is the division `diffCount / totalPixels` when
  `totalPixels = 0`; the metric therefore returns `Option ℚ`, with `none`
  standing for `NaN`.  A JS comparison whose operand is `NaN` (or `undefined`,
  from an out-of-range array read) is `false`; `chanDiff` and the `none`
  branch of the score comparison encode exactly that.
* React state (`photoCount`, `isCapturing`), the ref `prevImageDataRef`, and
  the interval handle `captureIntervalRef` are gathered into `SessionState`;
  `timerArmed` is the null-ness of `captureIntervalRef.current`.
* `savePhoto` performs external I/O and catches every failure internally,
  emitting a toast either way; its outcome (`saveOk`) can never reach the
  state updates in `capturePhoto`, which the embedding makes literal: the
  returned `SessionState` does not depend on `saveOk`, only the emitted
  toast list does.
-/

/-- Pixel buffer handed to `calculateImageDifference`: the `ImageData` object
read off the processing canvas.  `data` is the flat RGBA byte sequence
(4 entries per pixel, each 0–255 in a real buffer). -/
structure ImageData where
  width : ℕ
  height : ℕ
  data : List ℕ
deriving Repr, DecidableEq

/-- Channel comparison `Math.abs(c1 - c2) > 30` from the body of the loop in
`calculateImageDifference`.  An out-of-range JS array read yields `undefined`
(modelled `none`), arithmetic on it yields `NaN`, and `NaN > 30` is `false`. -/
def chanDiff (x y : Option ℕ) : Bool :=
  match x, y with
  | some a, some b => 30 < ((a : ℤ) - (b : ℤ)).natAbs
  | _, _ => false

/-- One iteration of the comparison loop, at the current suffixes of the two
data arrays: `|r1-r2| > 30 || |g1-g2| > 30 || |b1-b2| > 30` where the red,
green and blue bytes sit at offsets 0, 1, 2 (alpha, at offset 3, is never
read). -/
def pixelDiffAt (d1 d2 : List ℕ) : Bool :=
  chanDiff d1[0]? d2[0]? || chanDiff d1[1]? d2[1]? || chanDiff d1[2]? d2[2]?

/-- The loop `for (let i = 0; i < data1.length; i += 4)` of
`calculateImageDifference`, counting iterations whose pixel comparison fires.
Each step consumes one 4-byte chunk of `data1` and advances the shared index
by 4 (both suffixes drop 4); a trailing chunk of 1–3 bytes still runs one
iteration, whose missing channels read as `undefined` and compare `false`. -/
def diffCount : List ℕ → List ℕ → ℕ
  | [], _ => 0
  | a :: b :: c :: d :: t, d2 =>
      (if pixelDiffAt (a :: b :: c :: d :: t) d2 then 1 else 0) + diffCount t (d2.drop 4)
  | t, d2 => if pixelDiffAt t d2 then 1 else 0

/-- `calculateImageDifference(current, previous)`: counts differing pixels
over the loop bounded by `current.data`, then returns
`(diffCount / totalPixels) * 100` with `totalPixels = data1.length / 4`
(JS real division).  When `current.data` is empty the JS division is `0/0 =
NaN`, modelled as `none`. -/
def calculateImageDifference (current previous : ImageData) : Option ℚ :=
  let data1 := current.data
  let data2 := previous.data
  let totalPixels : ℚ := (data1.length : ℚ) / 4
  if data1.length = 0 then none
  else some ((diffCount data1 data2 : ℚ) / totalPixels * 100)

/-- Session-visible state of the sampler: React state `isCapturing` and
`photoCount`, the reference frame `prevImageDataRef.current`, and whether the
repeating 500 ms timer is armed (`captureIntervalRef.current` non-null). -/
structure SessionState where
  isCapturing : Bool
  photoCount : ℕ
  prevImageData : Option ImageData
  timerArmed : Bool
deriving Repr, DecidableEq

/-- `savePhoto`: requests external persistence of the canvas contents.  Every
failure is caught inside the function, so it always returns to the caller;
the only observable difference between success and failure is the toast shown
("Foto gespeichert" vs the error toast "Fehler").  `saveOk` is the outcome of
the external save request. -/
def savePhoto (saveOk : Bool) : List String :=
  if saveOk then ["Foto gespeichert"] else ["Fehler"]

/-- `capturePhoto`, the tick procedure.  `frame` is the `ImageData` read from
the canvas, `none` when the video/canvas/context is unavailable and the tick
returns early.  With a reference frame present the score is compared by
`difference >= 50` (a `NaN` score compares `false`); on the accept path and on
the bootstrap first-capture path, `savePhoto` is invoked and then the counter
increment and reference-frame replacement run unconditionally — they cannot
observe the save outcome.  Returns the new state and the emitted toasts. -/
def capturePhoto (frame : Option ImageData) (saveOk : Bool) (s : SessionState) :
    SessionState × List String :=
  match frame with
  | none => (s, [])
  | some currentImageData =>
    match s.prevImageData with
    | some prev =>
      match calculateImageDifference currentImageData prev with
      | some difference =>
        if 50 ≤ difference then
          ({ s with photoCount := s.photoCount + 1,
                    prevImageData := some currentImageData }, savePhoto saveOk)
        else (s, [])
      | none => (s, [])
    | none =>
      ({ s with photoCount := s.photoCount + 1,
                prevImageData := some currentImageData }, savePhoto saveOk)

/-- `toggleCapture`: from a capturing state, clears the interval (stop); from
an idle state, resets the counter to 0, clears the reference frame, and arms
the 500 ms interval (start).  Both branches flip `isCapturing`; the toasts it
shows are not part of the session state. -/
def toggleCapture (s : SessionState) : SessionState :=
  if s.isCapturing then
    { s with timerArmed := false, isCapturing := false }
  else
    { s with photoCount := 0, prevImageData := none,
             timerArmed := true, isCapturing := true }

/-- Timer semantics of `setInterval`/`clearInterval`: each elapsed 500 ms
period fires the tick procedure exactly when the interval is armed; a cleared
interval never fires.  `events` carries, per elapsed period, the frame the
canvas would yield and the save outcome; the result is the final state and
how many times the tick procedure actually executed. -/
def runTicks (s : SessionState) : List (Option ImageData × Bool) → SessionState × ℕ
  | [] => (s, 0)
  | e :: rest =>
    if s.timerArmed then
      let r := runTicks (capturePhoto e.1 e.2 s).1 rest
      (r.1, r.2 + 1)
    else runTicks s rest

/-! ### Spec-level frames

The specification speaks of a Frame as a rectangular grid of RGBA pixels;
`Frame.toImageData` flattens it into the byte buffer the code operates on. -/

/-- One spec-level pixel: red, green, blue, alpha intensities. -/
structure Pixel where
  r : ℕ
  g : ℕ
  b : ℕ
  a : ℕ
deriving Repr, DecidableEq

/-- Spec-level Frame: a pixel grid with its dimensions. -/
structure Frame where
  width : ℕ
  height : ℕ
  pixels : List Pixel
deriving Repr, DecidableEq

/-- Well-formedness of a Frame: the grid holds exactly width × height pixels. -/
def Frame.wf (A : Frame) : Prop := A.pixels.length = A.width * A.height

/-- Flatten a pixel list into the RGBA byte order of an `ImageData` buffer. -/
def flattenPixels : List Pixel → List ℕ
  | [] => []
  | p :: ps => p.r :: p.g :: p.b :: p.a :: flattenPixels ps

/-- The `ImageData` buffer a Frame presents to the code. -/
def Frame.toImageData (A : Frame) : ImageData :=
  ⟨A.width, A.height, flattenPixels A.pixels⟩

/-- Spec wording (§4.1): a pixel is "different" if the absolute difference of
at least one of the three colour channels exceeds the fixed threshold 30;
alpha is never examined. -/
def Pixel.differs (p q : Pixel) : Bool :=
  30 < ((p.r : ℤ) - (q.r : ℤ)).natAbs ||
  30 < ((p.g : ℤ) - (q.g : ℤ)).natAbs ||
  30 < ((p.b : ℤ) - (q.b : ℤ)).natAbs

/-- Spec wording (§4.1), for Frames of identical dimensions: the Difference
Score is `(count of different pixels / total pixel count) * 100`, the count
taken over pixel indices. -/
def specDifferenceScore (A B : Frame) : ℚ :=
  (((A.pixels.zip B.pixels).countP fun pq => pq.1.differs pq.2 : ℕ) : ℚ) /
    (A.pixels.length : ℚ) * 100

/-- Frame B derived from A by shifting every pixel's red channel by +31,
wrapping modulo 256 (spec §8 testable property). -/
def shiftRed31 (A : Frame) : Frame :=
  { A with pixels := A.pixels.map fun p => { p with r := (p.r + 31) % 256 } }

/-! ### Concrete sample data

Small frames and session states used to instantiate the theorems below. -/

/-- A black pixel. -/
def pxBlack : Pixel := ⟨0, 0, 0, 255⟩

/-- A pure red pixel. -/
def pxRed : Pixel := ⟨255, 0, 0, 255⟩

/-- 2×1 frame, both pixels black. -/
def frameBB : Frame := ⟨2, 1, [pxBlack, pxBlack]⟩

/-- 2×1 frame: one red pixel, one black pixel (differs from `frameBB` at
exactly one of two pixels, so the score against it is exactly 50). -/
def frameRB : Frame := ⟨2, 1, [pxRed, pxBlack]⟩

/-- 1×1 frame, single black pixel. -/
def frameB1 : Frame := ⟨1, 1, [pxBlack]⟩

/-- Degenerate frame with zero pixels. -/
def frameEmpty : Frame := ⟨0, 0, []⟩

/-- Running session just after its first accepted frame (`frameBB`). -/
def sessionRun : SessionState := ⟨true, 0, some frameBB.toImageData, true⟩

/-- Running session that has already saved 5 frames. -/
def sessionRunN : SessionState := ⟨true, 5, some frameBB.toImageData, true⟩

/-- Idle session still carrying leftovers of a previous run. -/
def sessionFresh : SessionState := ⟨false, 7, some frameRB.toImageData, false⟩

/-! ### Basic lemmas about the metric -/

theorem flattenPixels_length (ps : List Pixel) :
    (flattenPixels ps).length = 4 * ps.length := by
  induction ps with
  | nil => rfl
  | cons p ps ih => simp [flattenPixels, ih]; ring

/-- The loop count on flattened buffers is the zip count of differing pixels:
positions of the current frame with no counterpart in the previous buffer are
never counted. -/
theorem diffCount_flatten (A B : List Pixel) :
    diffCount (flattenPixels A) (flattenPixels B) =
      (A.zip B).countP fun pq => pq.1.differs pq.2 := by
  induction A generalizing B with
  | nil => simp [flattenPixels, diffCount]
  | cons p ps ih =>
    cases B with
    | nil =>
      have h0 : ∀ C : List Pixel, diffCount (flattenPixels C) [] = 0 := by
        intro C
        induction C with
        | nil => rfl
        | cons c cs ihc =>
          have hp : pixelDiffAt (c.r :: c.g :: c.b :: c.a :: flattenPixels cs) [] = false := by
            simp [pixelDiffAt, chanDiff]
          simp [flattenPixels, diffCount, hp, ihc]
      simpa using h0 (p :: ps)
    | cons q qs =>
      have hp : pixelDiffAt (p.r :: p.g :: p.b :: p.a :: flattenPixels ps)
          (q.r :: q.g :: q.b :: q.a :: flattenPixels qs) = p.differs q := by
        simp [pixelDiffAt, chanDiff, Pixel.differs]
      by_cases h : p.differs q = true <;>
        simp [flattenPixels, diffCount, hp, ih qs, List.countP_cons, h]
      omega

/-- Engine lemma: on frames with at least one pixel, the metric evaluates to
the zip count of differing pixels over the current frame's pixel count,
times 100 (no dimension hypothesis: the zip truncates at the shorter list). -/
theorem calculateImageDifference_flatten (A B : Frame) (hpos : 0 < A.pixels.length) :
    calculateImageDifference A.toImageData B.toImageData =
      some ((((A.pixels.zip B.pixels).countP fun pq => pq.1.differs pq.2 : ℕ) : ℚ) /
        (A.pixels.length : ℚ) * 100) := by
  have hne : ¬ (flattenPixels A.pixels).length = 0 := by
    rw [flattenPixels_length]; omega
  simp only [calculateImageDifference, Frame.toImageData, hne, if_false, diffCount_flatten]
  congr 1
  rw [flattenPixels_length]
  have h4 : ((4 * A.pixels.length : ℕ) : ℚ) / 4 = (A.pixels.length : ℚ) := by
    push_cast; ring
  rw [h4]

/-- Channel-wise absolute difference is symmetric, so pixel difference is. -/
theorem Pixel.differs_comm (p q : Pixel) : p.differs q = q.differs p := by
  simp only [Pixel.differs]
  rw [show ((p.r : ℤ) - q.r).natAbs = ((q.r : ℤ) - p.r).natAbs by omega,
      show ((p.g : ℤ) - q.g).natAbs = ((q.g : ℤ) - p.g).natAbs by omega,
      show ((p.b : ℤ) - q.b).natAbs = ((q.b : ℤ) - p.b).natAbs by omega]

/-- For equally long pixel lists, the zip count of differing pixels is
symmetric in the two lists. -/
theorem countP_zip_comm (A B : List Pixel) (h : A.length = B.length) :
    ((A.zip B).countP fun pq => pq.1.differs pq.2) =
      ((B.zip A).countP fun pq => pq.1.differs pq.2) := by
  induction A generalizing B with
  | nil => cases B <;> simp_all
  | cons p ps ih =>
    cases B with
    | nil => simp at h
    | cons q qs =>
      have hlen : ps.length = qs.length := by simpa using h
      simp [List.countP_cons, Pixel.differs_comm p q, ih qs hlen]

/-- Counting over a list zipped with its own image under a map. -/
theorem countP_zip_map_self (A : List Pixel) (f : Pixel → Pixel)
    (P : Pixel × Pixel → Bool) :
    ((A.zip (A.map f)).countP P) = A.countP fun p => P (p, f p) := by
  induction A with
  | nil => rfl
  | cons p ps ih => simp [List.countP_cons, ih]

/-- Shifting the red channel by +31 modulo 256 always moves it by 31 (no
wrap) or by at least 225 (wrap), so the pixel is always flagged. -/
theorem differs_shiftRed31 (p : Pixel) :
    p.differs { p with r := (p.r + 31) % 256 } = true := by
  simp only [Pixel.differs, Bool.or_eq_true, decide_eq_true_eq]
  left
  omega

/-- A cleared interval never fires: folding any sequence of elapsed timer
periods over an unarmed session executes zero ticks and leaves it unchanged. -/
theorem runTicks_unarmed (t : SessionState) (ht : t.timerArmed = false)
    (es : List (Option ImageData × Bool)) : runTicks t es = (t, 0) := by
  induction es with
  | nil => rfl
  | cons e rest ih => simp [runTicks, ht, ih]

/-! ### Concrete score evaluations -/

/-- Score of `frameRB` against `frameBB`: one of two pixels differs, 50. -/
theorem score_RB_BB :
    calculateImageDifference frameRB.toImageData frameBB.toImageData = some 50 := by
  norm_num [calculateImageDifference, Frame.toImageData, frameRB, frameBB, pxRed, pxBlack,
    flattenPixels, diffCount, pixelDiffAt, chanDiff]

/-- Score of `frameBB` against itself: 0. -/
theorem score_BB_BB :
    calculateImageDifference frameBB.toImageData frameBB.toImageData = some 0 := by
  norm_num [calculateImageDifference, Frame.toImageData, frameBB, pxBlack,
    flattenPixels, diffCount, pixelDiffAt, chanDiff]

/-- Score of the 2-pixel `frameRB` against the 1-pixel `frameB1`: the second
loop iteration reads `undefined` from the short buffer and counts nothing,
so the score is 1 differing pixel out of 2, i.e. 50. -/
theorem score_RB_B1 :
    calculateImageDifference frameRB.toImageData frameB1.toImageData = some 50 := by
  norm_num [calculateImageDifference, Frame.toImageData, frameRB, frameB1, pxRed, pxBlack,
    flattenPixels, diffCount, pixelDiffAt, chanDiff]

/-- Score of the 1-pixel `frameB1` against the 2-pixel `frameRB`: 1 differing
pixel out of 1, i.e. 100. -/
theorem score_B1_RB :
    calculateImageDifference frameB1.toImageData frameRB.toImageData = some 100 := by
  norm_num [calculateImageDifference, Frame.toImageData, frameRB, frameB1, pxRed, pxBlack,
    flattenPixels, diffCount, pixelDiffAt, chanDiff]

/-! ### Claim theorems -/

/-- C1: with a reference frame present and a current frame obtained, the tick
accepts (requests the save, increments the counter by 1, replaces the
reference frame with the current frame) exactly when the difference score is
at least 50; a score of exactly 50 is on the accepting side, and below 50 the
frame is discarded with the state unchanged. -/
theorem tick_accepts_iff_score_ge_50 (s : SessionState) (f prev : ImageData)
    (q : ℚ) (ok : Bool)
    (hprev : s.prevImageData = some prev)
    (hq : calculateImageDifference f prev = some q) :
    (50 ≤ q → capturePhoto (some f) ok s =
      ({ s with photoCount := s.photoCount + 1, prevImageData := some f },
        savePhoto ok)) ∧
    (q < 50 → capturePhoto (some f) ok s = (s, [])) := by
  simp only [capturePhoto, hprev, hq]
  constructor
  · intro h; rw [if_pos h]
  · intro h; rw [if_neg (not_le.mpr h)]

/-- Witness for C1: against the all-black reference `frameBB`, the frame
`frameRB` scores exactly 50 and is accepted, while `frameBB` itself scores 0
and is rejected with the state untouched. -/
theorem tick_accepts_iff_score_ge_50_witness :
    sessionRun.prevImageData = some frameBB.toImageData ∧
    calculateImageDifference frameRB.toImageData frameBB.toImageData = some 50 ∧
    capturePhoto (some frameRB.toImageData) true sessionRun =
      ({ sessionRun with photoCount := sessionRun.photoCount + 1,
                         prevImageData := some frameRB.toImageData },
        savePhoto true) ∧
    calculateImageDifference frameBB.toImageData frameBB.toImageData = some 0 ∧
    capturePhoto (some frameBB.toImageData) true sessionRun = (sessionRun, []) := by
  refine ⟨rfl, score_RB_BB, ?_, score_BB_BB, ?_⟩
  · exact (tick_accepts_iff_score_ge_50 sessionRun frameRB.toImageData
      frameBB.toImageData 50 true rfl score_RB_BB).1 (by norm_num)
  · exact (tick_accepts_iff_score_ge_50 sessionRun frameBB.toImageData
      frameBB.toImageData 0 true rfl score_BB_BB).2 (by norm_num)

/-- C2: for frames of identical dimensions, the code's difference score is
exactly the spec formula — the count of pixel indices at which red, green or
blue differs in absolute value by strictly more than 30, divided by the pixel
count, times 100; alpha never enters the comparison. -/
theorem score_matches_spec_formula (A B : Frame)
    (_hw : A.width = B.width) (_hh : A.height = B.height)
    (_hA : A.wf) (_hB : B.wf) (hpos : 0 < A.pixels.length) :
    calculateImageDifference A.toImageData B.toImageData =
      some (specDifferenceScore A B) := by
  rw [calculateImageDifference_flatten A B hpos, specDifferenceScore]

/-- Witness for C2: `frameRB` against `frameBB` (both 2×1) realises the spec
formula, evaluating to 50. -/
theorem score_matches_spec_formula_witness :
    frameRB.width = frameBB.width ∧ frameRB.height = frameBB.height ∧
    frameRB.wf ∧ frameBB.wf ∧ 0 < frameRB.pixels.length ∧
    calculateImageDifference frameRB.toImageData frameBB.toImageData =
      some (specDifferenceScore frameRB frameBB) ∧
    specDifferenceScore frameRB frameBB = 50 :=
  ⟨rfl, rfl, rfl, rfl, by decide,
    score_matches_spec_formula frameRB frameBB rfl rfl rfl rfl (by decide),
    by norm_num [specDifferenceScore, frameRB, frameBB, pxRed, pxBlack,
      Pixel.differs, List.countP_cons]⟩

/-- Counterexample to C3: an accepting tick whose save fails (`saveOk =
false`) still increments the counter from 0 to 1 and still replaces the
reference frame — the state is not left unchanged as the claim asserts; only
the error toast differs from the success case. -/
theorem save_failure_still_updates_state :
    sessionRun.photoCount = 0 ∧
    (capturePhoto (some frameRB.toImageData) false sessionRun).1.photoCount = 1 ∧
    (capturePhoto (some frameRB.toImageData) false sessionRun).1.prevImageData =
      some frameRB.toImageData ∧
    (capturePhoto (some frameRB.toImageData) false sessionRun).2 = ["Fehler"] := by
  refine ⟨rfl, ?_, ?_, ?_⟩ <;>
    simp [capturePhoto, sessionRun, score_RB_BB, savePhoto]

/-- C3 amended: on a persistence failure during an accepting tick, the error
is reported via the "Fehler" toast and the session continues, but the counter
is still incremented and the reference frame still replaced — the state
update is identical to the success case (savePhoto catches its failures after
the frame was already logically accepted). -/
theorem save_failure_treated_as_accepted (s : SessionState) (f prev : ImageData)
    (q : ℚ) (hprev : s.prevImageData = some prev)
    (hq : calculateImageDifference f prev = some q) (hge : 50 ≤ q) :
    capturePhoto (some f) false s =
      ({ s with photoCount := s.photoCount + 1, prevImageData := some f },
        ["Fehler"]) ∧
    (capturePhoto (some f) false s).1 = (capturePhoto (some f) true s).1 := by
  simp only [capturePhoto, savePhoto, hprev, hq]
  simp [hge]

/-- Witness for C3's amended statement, at the score-50 accepting tick with a
failing save. -/
theorem save_failure_treated_as_accepted_witness :
    sessionRun.prevImageData = some frameBB.toImageData ∧
    calculateImageDifference frameRB.toImageData frameBB.toImageData = some 50 ∧
    (50 : ℚ) ≤ 50 ∧
    (capturePhoto (some frameRB.toImageData) false sessionRun =
      ({ sessionRun with photoCount := sessionRun.photoCount + 1,
                         prevImageData := some frameRB.toImageData },
        ["Fehler"]) ∧
    (capturePhoto (some frameRB.toImageData) false sessionRun).1 =
      (capturePhoto (some frameRB.toImageData) true sessionRun).1) :=
  ⟨rfl, score_RB_BB, by norm_num,
    save_failure_treated_as_accepted sessionRun frameRB.toImageData
      frameBB.toImageData 50 rfl score_RB_BB (by norm_num)⟩

/-- C4: the first tick of a session that obtains a frame accepts
unconditionally: starting from any idle state, after `toggleCapture` (start)
the immediate tick requests the save, sets the counter to 1, and installs the
frame as the reference frame, whatever its content. -/
theorem first_tick_always_accepts (s : SessionState) (f : ImageData) (ok : Bool)
    (hidle : s.isCapturing = false) :
    (capturePhoto (some f) ok (toggleCapture s)).1.photoCount = 1 ∧
    (capturePhoto (some f) ok (toggleCapture s)).1.prevImageData = some f ∧
    (capturePhoto (some f) ok (toggleCapture s)).2 = savePhoto ok := by
  unfold toggleCapture
  simp [hidle, capturePhoto]

/-- Witness for C4: starting from an idle state with leftover counter 7, the
first tick saves `frameBB` and the counter becomes 1. -/
theorem first_tick_always_accepts_witness :
    sessionFresh.isCapturing = false ∧
    ((capturePhoto (some frameBB.toImageData) true (toggleCapture sessionFresh)).1.photoCount = 1 ∧
    (capturePhoto (some frameBB.toImageData) true (toggleCapture sessionFresh)).1.prevImageData =
      some frameBB.toImageData ∧
    (capturePhoto (some frameBB.toImageData) true (toggleCapture sessionFresh)).2 =
      savePhoto true) :=
  ⟨rfl, first_tick_always_accepts sessionFresh frameBB.toImageData true rfl⟩

/-- C5 amended: for every pair of frames whose current frame has at least one
pixel, the metric returns a rational score in the closed interval [0, 100];
with zero pixels the JS division is 0/0 and the metric yields NaN instead of
a number (see the counterexample). -/
theorem score_in_unit_range (A B : Frame) (hpos : 0 < A.pixels.length) :
    ∃ q : ℚ, calculateImageDifference A.toImageData B.toImageData = some q ∧
      0 ≤ q ∧ q ≤ 100 := by
  refine ⟨_, calculateImageDifference_flatten A B hpos, ?_, ?_⟩
  · positivity
  · have hc : ((A.pixels.zip B.pixels).countP fun pq => pq.1.differs pq.2) ≤
        A.pixels.length := by
      refine le_trans (List.countP_le_length _) ?_
      rw [List.length_zip]
      omega
    have hcq : (((A.pixels.zip B.pixels).countP fun pq => pq.1.differs pq.2 : ℕ) : ℚ) ≤
        (A.pixels.length : ℚ) := by exact_mod_cast hc
    have hlen : (0 : ℚ) < (A.pixels.length : ℚ) := by exact_mod_cast hpos
    rw [div_mul_eq_mul_div, div_le_iff₀ hlen]
    linarith

/-- Counterexample to C5: on a frame with zero pixels the metric does not
return a real number in [0, 100] — the division `0/0` is NaN, modelled as
`none`. -/
theorem score_zero_pixels_not_in_range :
    calculateImageDifference frameEmpty.toImageData frameEmpty.toImageData = none ∧
    ¬ ∃ q : ℚ, calculateImageDifference frameEmpty.toImageData frameEmpty.toImageData =
        some q ∧ 0 ≤ q ∧ q ≤ 100 := by
  constructor
  · rfl
  · rintro ⟨q, hq, -, -⟩
    simp [calculateImageDifference, frameEmpty, Frame.toImageData, flattenPixels] at hq

/-- Witness for C5's amended statement: the 2-pixel frame `frameRB` against
the 1-pixel `frameB1` yields a score in [0, 100]. -/
theorem score_in_unit_range_witness :
    0 < frameRB.pixels.length ∧
    ∃ q : ℚ, calculateImageDifference frameRB.toImageData frameB1.toImageData = some q ∧
      0 ≤ q ∧ q ≤ 100 :=
  ⟨by decide, score_in_unit_range frameRB frameB1 (by decide)⟩

/-- Counterexample to C6: for frames of unequal dimensions the metric is not
symmetric — `frameRB` (2 pixels, one differing from black) against the
1-pixel `frameB1` scores 50, while the swapped comparison scores 100. -/
theorem score_not_symmetric_for_unequal_dims :
    calculateImageDifference frameRB.toImageData frameB1.toImageData = some 50 ∧
    calculateImageDifference frameB1.toImageData frameRB.toImageData = some 100 ∧
    calculateImageDifference frameRB.toImageData frameB1.toImageData ≠
      calculateImageDifference frameB1.toImageData frameRB.toImageData := by
  refine ⟨score_RB_B1, score_B1_RB, ?_⟩
  rw [score_RB_B1, score_B1_RB]
  simp

/-- C6 amended: for all frames A and B of identical dimensions, the
difference score is symmetric in its two arguments. -/
theorem score_symmetric_same_dims (A B : Frame)
    (hw : A.width = B.width) (hh : A.height = B.height)
    (hA : A.wf) (hB : B.wf) :
    calculateImageDifference A.toImageData B.toImageData =
      calculateImageDifference B.toImageData A.toImageData := by
  have hlen : A.pixels.length = B.pixels.length := by rw [hA, hB, hw, hh]
  by_cases h0 : A.pixels.length = 0
  · have hB0 : B.pixels.length = 0 := by omega
    simp [calculateImageDifference, Frame.toImageData, flattenPixels_length, h0, hB0]
  · have hpos : 0 < A.pixels.length := Nat.pos_of_ne_zero h0
    have hposB : 0 < B.pixels.length := by omega
    rw [calculateImageDifference_flatten A B hpos,
        calculateImageDifference_flatten B A hposB,
        countP_zip_comm A.pixels B.pixels hlen, hlen]

/-- Witness for C6's amended statement, on the equal-dimension frames
`frameRB` and `frameBB`. -/
theorem score_symmetric_same_dims_witness :
    frameRB.width = frameBB.width ∧ frameRB.height = frameBB.height ∧
    frameRB.wf ∧ frameBB.wf ∧
    calculateImageDifference frameRB.toImageData frameBB.toImageData =
      calculateImageDifference frameBB.toImageData frameRB.toImageData :=
  ⟨rfl, rfl, rfl, rfl, score_symmetric_same_dims frameRB frameBB rfl rfl rfl rfl⟩

/-- C7: shifting every pixel's red channel by +31 modulo 256 flags every
pixel as different (the red channel moves by 31, or by at least 225 on wrap,
both above the threshold 30), so against the original frame the score is
exactly 100 whenever the frame has at least one pixel. -/
theorem shiftRed31_score_100 (A : Frame) (hpos : 0 < A.pixels.length) :
    calculateImageDifference A.toImageData (shiftRed31 A).toImageData = some 100 := by
  rw [calculateImageDifference_flatten A (shiftRed31 A) hpos]
  have hcount : ((A.pixels.zip (shiftRed31 A).pixels).countP fun pq =>
      pq.1.differs pq.2) = A.pixels.length := by
    show ((A.pixels.zip (A.pixels.map _)).countP fun pq => pq.1.differs pq.2) = _
    rw [countP_zip_map_self, List.countP_eq_length]
    intro p _
    exact differs_shiftRed31 p
  rw [hcount]
  have hlen : ((A.pixels.length : ℚ)) ≠ 0 := by
    exact_mod_cast Nat.pos_iff_ne_zero.mp hpos
  rw [div_self hlen, one_mul]

/-- Witness for C7 at the all-black 2×1 frame: red goes 0 to 31, difference
31 greater than 30, score 100. -/
theorem shiftRed31_score_100_witness :
    0 < frameBB.pixels.length ∧
    calculateImageDifference frameBB.toImageData (shiftRed31 frameBB).toImageData =
      some 100 :=
  ⟨by decide, shiftRed31_score_100 frameBB (by decide)⟩

/-- C8: stopping a running session and immediately starting again yields a
state with saved-frame counter 0 and no reference frame, whatever the prior
session had saved. -/
theorem stop_start_resets_session (s : SessionState) (hrun : s.isCapturing = true) :
    (toggleCapture (toggleCapture s)).photoCount = 0 ∧
    (toggleCapture (toggleCapture s)).prevImageData = none := by
  simp [toggleCapture, hrun]

/-- Witness for C8: a running session with 5 saved frames and a reference
frame, stopped and restarted, comes back with counter 0 and no reference. -/
theorem stop_start_resets_session_witness :
    sessionRunN.isCapturing = true ∧ sessionRunN.photoCount = 5 ∧
    ((toggleCapture (toggleCapture sessionRunN)).photoCount = 0 ∧
    (toggleCapture (toggleCapture sessionRunN)).prevImageData = none) :=
  ⟨rfl, rfl, stop_start_resets_session sessionRunN rfl⟩

/-- C9: after `stop()` returns (a toggle from a running session), no tick
procedure ever executes over any subsequent sequence of elapsed timer
periods — the interval is cleared — and the session state stays exactly the
stopped state. -/
theorem no_tick_fires_after_stop (s : SessionState) (hrun : s.isCapturing = true)
    (es : List (Option ImageData × Bool)) :
    (runTicks (toggleCapture s) es).2 = 0 ∧
    (runTicks (toggleCapture s) es).1 = toggleCapture s := by
  have harm : (toggleCapture s).timerArmed = false := by simp [toggleCapture, hrun]
  rw [runTicks_unarmed _ harm es]
  exact ⟨rfl, rfl⟩

/-- Witness for C9: after stopping a running session, two elapsed timer
periods (one with a frame available, one without) execute zero ticks. -/
theorem no_tick_fires_after_stop_witness :
    sessionRunN.isCapturing = true ∧
    ((runTicks (toggleCapture sessionRunN)
        [(some frameRB.toImageData, true), (none, false)]).2 = 0 ∧
    (runTicks (toggleCapture sessionRunN)
        [(some frameRB.toImageData, true), (none, false)]).1 =
      toggleCapture sessionRunN) :=
  ⟨rfl, no_tick_fires_after_stop sessionRunN rfl
    [(some frameRB.toImageData, true), (none, false)]⟩

/-- C10: for any two frames — equal dimensions or not — as long as the
current frame has at least one pixel the metric returns a value: the loop is
bounded by the current frame's data, a pixel index with no counterpart in the
previous frame is never counted (its channel reads are `undefined` and every
`NaN` comparison is false), and the score is the zip-truncated count of
differing pixels over the current frame's pixel count, times 100. -/
theorem score_truncates_at_shorter_frame (A B : Frame) (hpos : 0 < A.pixels.length) :
    calculateImageDifference A.toImageData B.toImageData =
      some ((((A.pixels.zip B.pixels).countP fun pq => pq.1.differs pq.2 : ℕ) : ℚ) /
        (A.pixels.length : ℚ) * 100) :=
  calculateImageDifference_flatten A B hpos

/-- Witness for C10 on frames of unequal dimensions: the 2-pixel `frameRB`
against the 1-pixel `frameB1`, where the zip count is 1 and the score 50. -/
theorem score_truncates_at_shorter_frame_witness :
    0 < frameRB.pixels.length ∧
    calculateImageDifference frameRB.toImageData frameB1.toImageData =
      some ((((frameRB.pixels.zip frameB1.pixels).countP fun pq =>
        pq.1.differs pq.2 : ℕ) : ℚ) / (frameRB.pixels.length : ℚ) * 100) :=
  ⟨by decide, score_truncates_at_shorter_frame frameRB frameB1 (by decide)⟩
